import Mathlib

/-
Verification development for the recommendation-derivation helpers of
src/actions.py (a bilingual Mongolia travel-advisor action layer).

Modelling conventions:
- Python str values are Lean String values; the per-character helpers below
  work on the underlying List Char.
- Python float arithmetic is modelled with exact rationals.
- The repository file stores its UTF-8 text in a MacRoman-mojibaked form;
  every literal decodes cleanly, and the string constants below carry the
  decoded text.
- Regex uses in the source are limited to two patterns, embedded below as
  first-match scanners over the character list.
-/

/-- Decision of an ASCII digit character, modelling the digit class of the
source's regular expressions on its inputs. -/
def isDigitCh (c : Char) : Bool := decide (48 ≤ c.toNat ∧ c.toNat ≤ 57)

/-- Decision of a whitespace character as stripped by Python str.strip. -/
def isWsCh (c : Char) : Bool := decide (c.toNat = 32 ∨ (9 ≤ c.toNat ∧ c.toNat ≤ 13))

/-- Removal of leading and trailing whitespace, modelling Python str.strip. -/
def trimWs (cs : List Char) : List Char :=
  ((cs.dropWhile isWsCh).reverse.dropWhile isWsCh).reverse

/-- Decision of whether the first list starts the second, character by character. -/
def isPrefixChars : List Char → List Char → Bool
  | [], _ => true
  | _ :: _, [] => false
  | a :: as, b :: bs => a == b && isPrefixChars as bs

/-- Substring containment, modelling the Python expression needle in haystack. -/
def containsSub : List Char → List Char → Bool
  | [], needle => needle.isEmpty
  | c :: t, needle => isPrefixChars needle (c :: t) || containsSub t needle

/-- First maximal run of digits, modelling re.search of one-or-more digits. -/
def firstDigits : List Char → Option (List Char)
  | [] => none
  | c :: t => if isDigitCh c then some (c :: t.takeWhile isDigitCh) else firstDigits t

/-- Characters admitted after the leading digit by the budget number pattern:
digits, commas and dots. -/
def isNumTokCh (c : Char) : Bool := isDigitCh c || c == ',' || c == '.'

/-- First number token, modelling re.search of a digit followed by digits,
commas and dots, as in src/actions.py line 40. -/
def firstNumChars : List Char → Option (List Char)
  | [] => none
  | c :: t => if isDigitCh c then some (c :: t.takeWhile isNumTokCh) else firstNumChars t

/-- Numeric value of a digit character. -/
def digitVal (c : Char) : ℕ := c.toNat - 48

/-- Base-ten value of a digit string, modelling Python int on digit text. -/
def digitsToNat (cs : List Char) : ℕ := cs.foldl (fun a c => 10 * a + digitVal c) 0

/-- Conversion of a digit-and-dot token to a rational, modelling Python float:
it fails exactly when the token holds a second dot. -/
def parseFloatChars (cs : List Char) : Option ℚ :=
  let intPart := cs.takeWhile (fun c => c ≠ '.')
  match cs.dropWhile (fun c => c ≠ '.') with
  | [] => some (digitsToNat intPart)
  | _ :: frac =>
    if frac.any (fun c => c == '.') then none
    else some ((digitsToNat intPart : ℚ) + (digitsToNat frac : ℚ) / (10 : ℚ) ^ frac.length)

/-- Digit character of a value below ten. -/
def digitChar (d : ℕ) : Char :=
  match d with
  | 0 => '0'
  | 1 => '1'
  | 2 => '2'
  | 3 => '3'
  | 4 => '4'
  | 5 => '5'
  | 6 => '6'
  | 7 => '7'
  | 8 => '8'
  | _ => '9'

/-- Fuelled base-ten digit expansion; with fuel above the value it renders the
decimal digits most significant first. -/
def natDigitChars : ℕ → ℕ → List Char
  | 0, _ => []
  | fuel + 1, n =>
    if n < 10 then [digitChar n] else natDigitChars fuel (n / 10) ++ [digitChar (n % 10)]

/-- Decimal rendering of a natural number, modelling Python str on a
non-negative int. -/
def renderNat (n : ℕ) : String := String.mk (natDigitChars (n + 1) n)
/-- Uppercase-to-lowercase table modelling Python str.lower on the alphabets this
development needs: ASCII letters and the Mongolian Cyrillic letters appearing in the
source literals and in the inputs of the properties below. -/
def upper_lower_map : List (Char × Char) :=
  [('A', 'a'), ('B', 'b'), ('C', 'c'), ('D', 'd'), ('E', 'e'), ('F', 'f'), ('G', 'g'), ('H', 'h'),
   ('I', 'i'), ('J', 'j'), ('K', 'k'), ('L', 'l'), ('M', 'm'), ('N', 'n'), ('O', 'o'), ('P', 'p'),
   ('Q', 'q'), ('R', 'r'), ('S', 's'), ('T', 't'), ('U', 'u'), ('V', 'v'), ('W', 'w'), ('X', 'x'),
   ('Y', 'y'), ('Z', 'z'), ('А', 'а'), ('Б', 'б'), ('В', 'в'), ('Г', 'г'), ('Д', 'д'), ('Е', 'е'),
   ('Ж', 'ж'), ('З', 'з'), ('И', 'и'), ('Й', 'й'), ('К', 'к'), ('Л', 'л'), ('М', 'м'), ('Н', 'н'),
   ('О', 'о'), ('П', 'п'), ('Р', 'р'), ('С', 'с'), ('Т', 'т'), ('У', 'у'), ('Ф', 'ф'), ('Х', 'х'),
   ('Ц', 'ц'), ('Ч', 'ч'), ('Ш', 'ш'), ('Щ', 'щ'), ('Ъ', 'ъ'), ('Ы', 'ы'), ('Ь', 'ь'), ('Э', 'э'),
   ('Ю', 'ю'), ('Я', 'я'), ('Ё', 'ё'), ('Ө', 'ө'), ('Ү', 'ү')]

/-- Tugrik currency sign marker checked at src/actions.py line 50. -/
def mnt_sign : String := "₮"

/-- Cyrillic tugrik word marker checked at src/actions.py line 50. -/
def mnt_tog : String := "төг"

/-- Cyrillic million-multiplier keyword checked at src/actions.py lines 50 and 53. -/
def mnt_saya : String := "сая"

/-- East-Asia keyword list from src/actions.py line 84. -/
def east_keywords : List String :=
  ["japan", "korea", "china", "taiwan", "hong kong", "япон", "солонгос", "хятад", "тайвань"]

/-- West keyword list from src/actions.py line 85. -/
def west_keywords : List String :=
  ["usa", "united states", "canada", "uk", "england", "germany", "france", "italy", "spain", "australia", "европ"]

/-- Fixed 3-day itinerary template, src/actions.py lines 103-107. -/
def itin_le3 : List String :=
  ["Day 1: Улаанбаатар — музей + төв талбай + оройн хоол", "Day 2: Тэрэлж эсвэл Хустайн нуруу (өдрийн аялал)", "Day 3: УБ — чөлөөт өдөр + буцах"]

/-- Base 4-day template for the 4..6-day tier, src/actions.py lines 110-115. -/
def itin_mid_base : List String :=
  ["Day 1: Улаанбаатар — хотын өдөр", "Day 2: Тэрэлж — байгаль + морь (хүсвэл)", "Day 3: Хустайн нуруу — зэрлэг адуу", "Day 4: Хархорин–Эрдэнэзуу — соёл/түүх"]

/-- Optional day-5 entry, src/actions.py line 117. -/
def itin_mid_d5 : String := "Day 5: Орхоны хөндий / Улаан цутгалан (зам/улирал таарвал)"

/-- Optional day-6 entry, src/actions.py line 119. -/
def itin_mid_d6 : String := "Day 6: УБ — амрах + буцах бэлтгэл"

/-- Base 7-day adventure-bucket template, src/actions.py lines 124-132. -/
def itin_adv_base : List String :=
  ["Day 1: Улаанбаатар — хотын өдөр", "Day 2: Цагаан суварга", "Day 3: Ёлын ам", "Day 4: Хонгорын элс", "Day 5: Баянзаг (Flaming Cliffs)", "Day 6: Улаанбаатар — буцах/амрах", "Day 7: Нөөц өдөр: Тэрэлж эсвэл хотын нэмэлт"]

/-- Optional adventure day-8 entry, src/actions.py line 134. -/
def itin_adv_d8 : String := "Day 8: Их газрын чулуу (бага очдог, өвөрмөц хад)"

/-- Optional adventure day-9 entry, src/actions.py line 136. -/
def itin_adv_d9 : String := "Day 9: Хустайн нуруу (зэрлэг адуу)"

/-- Optional adventure day-10 entry, src/actions.py line 138. -/
def itin_adv_d10 : String := "Day 10: УБ — чөлөөт өдөр"

/-- Base 7-day template for the nature, culture, quiet and mixed buckets,
src/actions.py lines 142-150. -/
def itin_gen_base : List String :=
  ["Day 1: Улаанбаатар — хотын өдөр", "Day 2: Архангай руу (замын аялал)", "Day 3: Хорго–Тэрхийн Цагаан нуур", "Day 4: Хархорин–Эрдэнэзуу", "Day 5: Нэмэлт: Амарбаясгалант хийд (бага очдог) эсвэл Орхон", "Day 6: Улаанбаатар — буцах/амрах", "Day 7: Хустайн нуруу эсвэл Тэрэлж (day trip)"]

/-- Optional day-8 entry of the general template, src/actions.py line 152. -/
def itin_gen_d8 : String := "Day 8: Нөөц өдөр + shopping/кафе"

/-- Optional day-9 entry of the general template, src/actions.py line 154. -/
def itin_gen_d9 : String := "Day 9: (Optional) Хөвсгөл рүү дотоод нислэгээр цаг хэмнэх"

/-- Optional day-10 entry of the general template, src/actions.py line 156. -/
def itin_gen_d10 : String := "Day 10: Амралт + буцах"

/-- Budget text of two million tugrik: the million keyword plus the tugrik sign. -/
def spec_budget_saya : String := "2 сая₮"

/-- Cyrillic spelling of Ulaanbaatar as it appears in the itinerary templates. -/
def spec_ulaanbaatar : String := "Улаанбаатар"

/-- Lowercasing of one character through the case table, modelling Python
str.lower on the alphabets in play. -/
def pyLower (c : Char) : Char :=
  match upper_lower_map.find? (fun p => p.1 == c) with
  | some p => p.2
  | none => c

/-- Normalisation of a slot string, embedding the helper at src/actions.py
lines 11-12: strip surrounding whitespace, then lowercase. -/
def pyNorm (t : String) : List Char := (trimWs t.data).map pyLower

/-- Detection of the million-multiplier keyword, src/actions.py line 53. -/
def has_saya (s : List Char) : Bool := containsSub s mnt_saya.data

/-- Detection of a tugrik marker, src/actions.py line 50. -/
def is_mnt_marked (s : List Char) : Bool :=
  containsSub s mnt_sign.data || containsSub s "mnt".data ||
    containsSub s mnt_tog.data || has_saya s

/-- Detection of a dollar marker, src/actions.py line 51. -/
def is_usd_marked (s : List Char) : Bool :=
  containsSub s "$".data || containsSub s "usd".data || containsSub s "dollar".data

/-- Budget parser, embedding parse_budget_to_usd at src/actions.py lines 32-66.
The pair mirrors the Python tuple result; tugrik amounts convert at 3500 to one
dollar. The source sets its is_mnt flag again inside the million-keyword branch,
which is redundant there because the same keyword already raised the flag on
line 50; the embedding keeps the single flag computation. -/
def parse_budget_to_usd (budget_text : String) : Option ℚ × String :=
  let s := pyNorm budget_text
  if s.isEmpty then (none, budget_text)
  else
    match firstNumChars s with
    | none => (none, budget_text)
    | some tok =>
      match parseFloatChars (tok.filter (fun c => c ≠ ',')) with
      | none => (none, budget_text)
      | some amt =>
        let amount := if has_saya s then amt * 1000000 else amt
        if is_usd_marked s && !(is_mnt_marked s) then (some amount, budget_text)
        else if is_mnt_marked s && !(is_usd_marked s) then (some (amount / 3500), budget_text)
        else if amount ≤ 10000 then (some amount, budget_text)
        else (some (amount / 3500), budget_text)

/-- Number-extraction stage of the budget parser in isolation: the first number
token of the normalised text, with commas removed, read as a float. -/
def extracted_amount (t : String) : Option ℚ :=
  match firstNumChars (pyNorm t) with
  | none => none
  | some tok => parseFloatChars (tok.filter (fun c => c ≠ ','))

/-- Day-count parser, embedding parse_int_from_text at src/actions.py
lines 24-29: the first digit run of the normalised text when its value is
positive, and the default otherwise. -/
def parse_int_from_text (text : String) (default : ℤ) : ℤ :=
  match firstDigits (pyNorm text) with
  | none => default
  | some ds => if (digitsToNat ds : ℤ) > 0 then (digitsToNat ds : ℤ) else default

/-- Origin-cluster classifier, embedding country_cluster at src/actions.py
lines 82-90: case-insensitive substring match against the east list, then the
west list, else the other cluster. -/
def country_cluster (country : String) : String :=
  let c := pyNorm country
  if east_keywords.any (fun x => containsSub c x.data) then "east_asia"
  else if west_keywords.any (fun x => containsSub c x.data) then "west"
  else "other"

/-- Itinerary builder, embedding build_itinerary at src/actions.py
lines 101-157: a fixed template per day tier, with optional trailing entries
appended as the day count passes each threshold. -/
def build_itinerary (days : ℤ) (bucket : String) : List String :=
  if days ≤ 3 then
    itin_le3
  else if 4 ≤ days ∧ days ≤ 6 then
    let plan := itin_mid_base
    let plan := if 5 ≤ days then plan ++ [itin_mid_d5] else plan
    let plan := if 6 ≤ days then plan ++ [itin_mid_d6] else plan
    plan
  else if bucket = "adventure" then
    let plan := itin_adv_base
    let plan := if 8 ≤ days then plan ++ [itin_adv_d8] else plan
    let plan := if 9 ≤ days then plan ++ [itin_adv_d9] else plan
    let plan := if 10 ≤ days then plan ++ [itin_adv_d10] else plan
    plan
  else
    let plan := itin_gen_base
    let plan := if 8 ≤ days then plan ++ [itin_gen_d8] else plan
    let plan := if 9 ≤ days then plan ++ [itin_gen_d9] else plan
    let plan := if 10 ≤ days then plan ++ [itin_gen_d10] else plan
    plan

/-- Accommodation-tier classification over the parsed dollar estimate,
embedding the inline branch at src/actions.py lines 256-264. -/
def budget_tier_usd : Option ℚ → String
  | none => "mid"
  | some usd_est =>
    if usd_est < 700 then "budget"
    else if usd_est < 1600 then "mid"
    else "premium"

/-- Rank of a tier label in the budget-mid-premium order, for stating that the
classification is monotone. -/
def tier_rank (t : String) : ℕ := if t = "budget" then 0 else if t = "mid" then 1 else 2

/-- Outcome of the detailed-breakdown action: either the prompt-for-budget
message or the numeric lines with total, day count and the four categories. -/
inductive BreakdownMsg where
  | promptForBudget : BreakdownMsg
  | numericLines : ℚ → ℤ → ℚ → ℚ → ℚ → ℚ → BreakdownMsg

/-- Detailed-breakdown action core, embedding ActionDetailedBreakdown.run at
src/actions.py lines 397-424 as a function of the two slot texts it reads. -/
def action_detailed_breakdown (days_text budget_text : String) : BreakdownMsg :=
  let days := parse_int_from_text days_text 7
  match (parse_budget_to_usd budget_text).1 with
  | none => BreakdownMsg.promptForBudget
  | some usd_est =>
    BreakdownMsg.numericLines usd_est days
      (usd_est * 0.35) (usd_est * 0.45) (usd_est * 0.15) (usd_est * 0.05)

/-- Rounding of a non-negative rational to the nearest integer with ties to
even, modelling the Python format specifier of zero decimal places. -/
def pyFormatF0 (q : ℚ) : ℤ :=
  if q - ⌊q⌋ < 1 / 2 then ⌊q⌋
  else if 1 / 2 < q - ⌊q⌋ then ⌊q⌋ + 1
  else if ⌊q⌋ % 2 = 0 then ⌊q⌋ else ⌊q⌋ + 1

/-- Dollar rendering of a parsed amount as the submit action prints it, a
dollar sign followed by the amount at zero decimal places. -/
def render_usd_whole (q : ℚ) : String := "$" ++ renderNat (pyFormatF0 q).toNat

/-- Tier partition of day counts as the capping claim words it: up to three
days, four to six days, and seven or more days. -/
def same_tier (d₁ d₂ : ℤ) : Prop :=
  (d₁ ≤ 3 ∧ d₂ ≤ 3) ∨ (4 ≤ d₁ ∧ d₁ ≤ 6 ∧ 4 ≤ d₂ ∧ d₂ ≤ 6) ∨ (7 ≤ d₁ ∧ 7 ≤ d₂)

/-- Length of the itinerary as a function of the day count: three entries up to
three days, one entry per day from four to ten days, ten entries beyond. -/
lemma build_itinerary_length (d : ℤ) (b : String) :
    ((build_itinerary d b).length : ℤ) =
      if d ≤ 3 then 3 else if d ≤ 6 then d else if d ≤ 10 then d else 10 := by
  simp only [build_itinerary, itin_le3, itin_mid_base, itin_adv_base, itin_gen_base]
  split_ifs <;> simp_all <;> omega

/-- Day counts past ten change nothing: the itinerary equals the ten-day one. -/
theorem itinerary_caps_at_ten (d : ℤ) (b : String) (h : 10 < d) :
    build_itinerary d b = build_itinerary 10 b := by
  have hn3 : ¬ (d ≤ 3) := by omega
  have hn46 : ¬ (4 ≤ d ∧ d ≤ 6) := by omega
  have h8 : (8 : ℤ) ≤ d := by omega
  have h9 : (9 : ℤ) ≤ d := by omega
  have h10 : (10 : ℤ) ≤ d := by omega
  simp only [build_itinerary, hn3, hn46, h8, h9, h10, if_true, if_false]
  norm_num

/-- Witness instantiating the capping theorem at fifteen requested days. -/
theorem itinerary_caps_at_ten_witness :
    build_itinerary 15 "adventure" = build_itinerary 10 "adventure" :=
  itinerary_caps_at_ten 15 "adventure" (by norm_num)

/-- Day counts of at most three, zero and negative ones included, all yield the
same fixed three-entry template, so the builder never returns an empty list. -/
theorem itinerary_total_no_positivity :
    (∀ d : ℤ, d ≤ 3 → ∀ b : String,
      build_itinerary d b = build_itinerary 3 "mixed" ∧ (build_itinerary d b).length = 3) ∧
    (∀ (d : ℤ) (b : String), build_itinerary d b ≠ []) := by
  constructor
  · intro d hd b
    constructor
    · simp [build_itinerary, hd]
    · simp [build_itinerary, hd, itin_le3]
  · intro d b hnil
    have h := build_itinerary_length d b
    rw [hnil] at h
    simp only [List.length_nil, Nat.cast_zero] at h
    split_ifs at h <;> omega

/-- Witness instantiating the total-builder theorem at minus two days. -/
theorem itinerary_total_no_positivity_witness :
    build_itinerary (-2) "nature" = build_itinerary 3 "mixed" ∧
      (build_itinerary (-2) "nature").length = 3 :=
  itinerary_total_no_positivity.1 (-2) (by norm_num) "nature"

/-- Day counts from one to ten give a non-empty itinerary whose length is
non-decreasing inside each day tier, and three mixed days give exactly the
three-entry template led by the Day 1 Ulaanbaatar city entry. -/
theorem itinerary_monotone_and_fixture :
    (∀ (b : String) (d : ℤ), 1 ≤ d → d ≤ 10 → build_itinerary d b ≠ []) ∧
    (∀ (b : String) (d₁ d₂ : ℤ), 1 ≤ d₁ → d₁ ≤ d₂ → d₂ ≤ 10 → same_tier d₁ d₂ →
      (build_itinerary d₁ b).length ≤ (build_itinerary d₂ b).length) ∧
    ((build_itinerary 3 "mixed").length = 3 ∧
      isPrefixChars "Day 1".data ((build_itinerary 3 "mixed").headI).data = true ∧
      containsSub ((build_itinerary 3 "mixed").headI).data spec_ulaanbaatar.data = true) := by
  refine ⟨?_, ?_, ?_, ?_, ?_⟩
  · intro b d _ _ hnil
    have h := build_itinerary_length d b
    rw [hnil] at h
    simp only [List.length_nil, Nat.cast_zero] at h
    split_ifs at h <;> omega
  · intro b d₁ d₂ h1 h12 h2 ht
    have l1 := build_itinerary_length d₁ b
    have l2 := build_itinerary_length d₂ b
    have key : ((build_itinerary d₁ b).length : ℤ) ≤ ((build_itinerary d₂ b).length : ℤ) := by
      rw [l1, l2]
      rcases ht with ⟨ha, hb⟩ | ⟨ha, hb, hc, hd⟩ | ⟨ha, hb⟩ <;> split_ifs <;> omega
    exact_mod_cast key
  · decide
  · decide
  · decide

/-- Witness instantiating the tier-monotonicity theorem inside each tier. -/
theorem itinerary_monotone_and_fixture_witness :
    build_itinerary 2 "culture" ≠ [] ∧
      (build_itinerary 4 "quiet").length ≤ (build_itinerary 6 "quiet").length :=
  ⟨itinerary_monotone_and_fixture.1 "culture" 2 (by norm_num) (by norm_num),
    itinerary_monotone_and_fixture.2.1 "quiet" 4 6 (by norm_num) (by norm_num) (by norm_num)
      (by right; left; norm_num)⟩

/-- Budget-tier classification over the dollar estimate: absent maps to mid,
below seven hundred to budget, below sixteen hundred to mid, else premium; the
fixture values land as stated and the tier is monotone in the amount. -/
theorem budget_tier_thresholds :
    budget_tier_usd none = "mid" ∧
    (∀ a : ℚ, a < 700 → budget_tier_usd (some a) = "budget") ∧
    (∀ a : ℚ, 700 ≤ a → a < 1600 → budget_tier_usd (some a) = "mid") ∧
    (∀ a : ℚ, 1600 ≤ a → budget_tier_usd (some a) = "premium") ∧
    (budget_tier_usd (some 699) = "budget" ∧ budget_tier_usd (some 700) = "mid" ∧
      budget_tier_usd (some 1599) = "mid" ∧ budget_tier_usd (some 1600) = "premium") ∧
    (∀ a b : ℚ, a ≤ b →
      tier_rank (budget_tier_usd (some a)) ≤ tier_rank (budget_tier_usd (some b))) := by
  refine ⟨rfl, ?_, ?_, ?_, ⟨by norm_num [budget_tier_usd], by norm_num [budget_tier_usd],
    by norm_num [budget_tier_usd], by norm_num [budget_tier_usd]⟩, ?_⟩
  · intro a ha
    simp [budget_tier_usd, ha]
  · intro a ha hb
    simp [budget_tier_usd, hb, not_lt.mpr ha]
  · intro a ha
    simp [budget_tier_usd, not_lt.mpr (by linarith : (700:ℚ) ≤ a), not_lt.mpr ha]
  · intro a b hab
    have hrank : ∀ x : ℚ, tier_rank (budget_tier_usd (some x)) =
        if x < 700 then 0 else if x < 1600 then 1 else 2 := by
      intro x
      simp only [budget_tier_usd]
      split_ifs <;> rfl
    rw [hrank a, hrank b]
    split_ifs <;> first | omega | linarith

/-- Witness instantiating the tier theorem on each side of both thresholds. -/
theorem budget_tier_thresholds_witness :
    budget_tier_usd (some 650) = "budget" ∧ budget_tier_usd (some 900) = "mid" ∧
      budget_tier_usd (some 2000) = "premium" ∧
      tier_rank (budget_tier_usd (some 650)) ≤ tier_rank (budget_tier_usd (some 2000)) :=
  ⟨budget_tier_thresholds.2.1 650 (by norm_num),
    budget_tier_thresholds.2.2.1 900 (by norm_num) (by norm_num),
    budget_tier_thresholds.2.2.2.1 2000 (by norm_num),
    budget_tier_thresholds.2.2.2.2.2 650 2000 (by norm_num)⟩

/-- Origin-cluster classification: Japan lands in east Asia, Germany in the
west, an unmatched country such as Atlantis in other, and every result is one
of exactly these three labels, with the east label holding exactly when an
east-list keyword occurs in the lowercased country. -/
theorem country_cluster_classification :
    country_cluster "Japan" = "east_asia" ∧
    country_cluster "Germany" = "west" ∧
    country_cluster "Atlantis" = "other" ∧
    (∀ c : String, country_cluster c = "east_asia" ∨ country_cluster c = "west" ∨
      country_cluster c = "other") ∧
    (∀ c : String, country_cluster c = "east_asia" ↔
      east_keywords.any (fun x => containsSub (pyNorm c) x.data) = true) := by
  refine ⟨by decide, by decide, by decide, ?_, ?_⟩
  · intro c
    simp only [country_cluster]
    split_ifs <;> simp
  · intro c
    simp only [country_cluster]
    split_ifs with h1 h2 <;> simp_all

/-- Detailed-breakdown outcome: an absent amount yields the prompt-for-budget
message as a terminal outcome, and a present amount yields the numeric lines
with the fixed weights, which sum to one so the categories sum to the total. -/
theorem detailed_breakdown_weights :
    (∀ dt bt : String, (parse_budget_to_usd bt).1 = none →
      action_detailed_breakdown dt bt = BreakdownMsg.promptForBudget) ∧
    (∀ (dt bt : String) (a : ℚ), (parse_budget_to_usd bt).1 = some a →
      action_detailed_breakdown dt bt =
        BreakdownMsg.numericLines a (parse_int_from_text dt 7)
          (a * 0.35) (a * 0.45) (a * 0.15) (a * 0.05)) ∧
    ((0.35 : ℚ) + 0.45 + 0.15 + 0.05 = 1) ∧
    (∀ a : ℚ, a * 0.35 + a * 0.45 + a * 0.15 + a * 0.05 = a) := by
  refine ⟨?_, ?_, by norm_num, fun a => by ring⟩
  · intro dt bt h
    simp [action_detailed_breakdown, h]
  · intro dt bt a h
    simp [action_detailed_breakdown, h]

/-- Witness instantiating the breakdown theorem on an empty and on a parsed
thousand-dollar budget slot. -/
theorem detailed_breakdown_weights_witness :
    action_detailed_breakdown "5" "" = BreakdownMsg.promptForBudget ∧
      action_detailed_breakdown "5" "$1000" =
        BreakdownMsg.numericLines 1000 (parse_int_from_text "5" 7)
          (1000 * 0.35) (1000 * 0.45) (1000 * 0.15) (1000 * 0.05) :=
  ⟨detailed_breakdown_weights.1 "5" "" (by decide),
    detailed_breakdown_weights.2.1 "5" "$1000" 1000 (by decide)⟩

/-- Digit characters keep their value through the digit-character table. -/
lemma digitChar_val : ∀ m < 10, digitVal (digitChar m) = m := by decide

/-- Digit characters satisfy the digit predicate. -/
lemma digitChar_isDigit : ∀ m < 10, isDigitCh (digitChar m) = true := by decide

/-- Appending one digit multiplies the accumulated value by ten. -/
lemma digitsToNat_append (l : List Char) (c : Char) :
    digitsToNat (l ++ [c]) = 10 * digitsToNat l + digitVal c := by
  simp [digitsToNat, List.foldl_append]

/-- Value carried through the accumulator of the digit fold. -/
lemma digitsToNat_cons (c : Char) (l : List Char) :
    digitsToNat (c :: l) = l.foldl (fun a x => 10 * a + digitVal x) (digitVal c) := by
  simp [digitsToNat]

/-- Fuelled digit expansion is faithful when the fuel exceeds the value: it
renders a non-empty digit string whose base-ten value is the input. -/
lemma natDigitChars_correct : ∀ (fuel n : ℕ), n < fuel →
    digitsToNat (natDigitChars fuel n) = n ∧ natDigitChars fuel n ≠ [] ∧
      ∀ c ∈ natDigitChars fuel n, isDigitCh c = true := by
  intro fuel
  induction fuel with
  | zero => intro n h; omega
  | succ fuel ih =>
    intro n h
    by_cases h10 : n < 10
    · refine ⟨?_, by simp [natDigitChars, h10], ?_⟩
      · simpa [natDigitChars, h10, digitsToNat] using digitChar_val n h10
      · intro c hc
        simp only [natDigitChars, if_pos h10, List.mem_singleton] at hc
        subst hc
        exact digitChar_isDigit n h10
    · have hdiv : n / 10 < fuel := by
        have hlt : n / 10 < n := Nat.div_lt_self (by omega) (by omega)
        omega
      obtain ⟨ih1, ih2, ih3⟩ := ih (n / 10) hdiv
      simp only [natDigitChars, if_neg h10]
      refine ⟨?_, by simp, ?_⟩
      · rw [digitsToNat_append, ih1, digitChar_val (n % 10) (Nat.mod_lt _ (by omega))]
        omega
      · intro c hc
        rcases List.mem_append.1 hc with hc | hc
        · exact ih3 c hc
        · rw [List.mem_singleton] at hc
          subst hc
          exact digitChar_isDigit (n % 10) (Nat.mod_lt _ (by omega))

/-- Digit characters are not whitespace. -/
lemma isDigitCh_not_ws {c : Char} (h : isDigitCh c = true) : isWsCh c = false := by
  simp only [isDigitCh, decide_eq_true_eq] at h
  simp only [isWsCh, decide_eq_false_iff_not]
  omega

/-- Digit characters are neither the comma nor the dot of the number pattern. -/
lemma isDigitCh_ne_comma_dot {c : Char} (h : isDigitCh c = true) : c ≠ ',' ∧ c ≠ '.' := by
  constructor <;> intro heq <;> subst heq <;> revert h <;> decide

/-- Digit characters pass the number-token predicate. -/
lemma isDigitCh_numtok {c : Char} (h : isDigitCh c = true) : isNumTokCh c = true := by
  simp [isNumTokCh, h]

/-- Case lowering fixes every digit character, because the case table maps
uppercase letters only. -/
lemma pyLower_digit {c : Char} (h : isDigitCh c = true) : pyLower c = c := by
  unfold pyLower
  cases hf : upper_lower_map.find? (fun p => p.1 == c) with
  | none => rfl
  | some p =>
    exfalso
    have hpred := List.find?_some hf
    have hmem := List.mem_of_find?_eq_some hf
    have hnd : ∀ q ∈ upper_lower_map, isDigitCh q.1 = false := by decide
    have := hnd p hmem
    simp only [beq_iff_eq] at hpred
    rw [hpred, h] at this
    exact Bool.noConfusion this

/-- Case lowering never creates a digit, because the case table maps letters to
letters. -/
lemma pyLower_not_digit {c : Char} (h : isDigitCh c = false) : isDigitCh (pyLower c) = false := by
  unfold pyLower
  cases hf : upper_lower_map.find? (fun p => p.1 == c) with
  | none => exact h
  | some p =>
    have hmem := List.mem_of_find?_eq_some hf
    exact (by decide : ∀ q ∈ upper_lower_map, isDigitCh q.2 = false) p hmem

/-- Members of the trimmed list are members of the original list. -/
lemma mem_trimWs {c : Char} {l : List Char} (h : c ∈ trimWs l) : c ∈ l := by
  unfold trimWs at h
  rw [List.mem_reverse] at h
  have h2 := (List.dropWhile_sublist _).subset h
  rw [List.mem_reverse] at h2
  exact (List.dropWhile_sublist _).subset h2

/-- Trimming a list without whitespace changes nothing. -/
lemma trimWs_no_ws {l : List Char} (h : ∀ c ∈ l, isWsCh c = false) : trimWs l = l := by
  have hdrop : ∀ l' : List Char, (∀ c ∈ l', isWsCh c = false) → l'.dropWhile isWsCh = l' := by
    intro l' h'
    cases l' with
    | nil => rfl
    | cons c t => simp [List.dropWhile, h' c (by simp)]
  unfold trimWs
  rw [hdrop l h, hdrop _ (fun c hc => h c (List.mem_reverse.1 hc)), List.reverse_reverse]

/-- Texts without digits give the number pattern nothing to match. -/
lemma firstNumChars_none_of_no_digit :
    ∀ {l : List Char}, (∀ c ∈ l, isDigitCh c = false) → firstNumChars l = none := by
  intro l
  induction l with
  | nil => intro _; rfl
  | cons c t ih =>
    intro h
    simp only [firstNumChars, h c (by simp), Bool.false_eq_true, if_false]
    exact ih (fun x hx => h x (by simp [hx]))

/-- On a non-empty all-digit list the digit pattern matches the whole list. -/
lemma firstDigits_all {l : List Char} (hne : l ≠ []) (h : ∀ c ∈ l, isDigitCh c = true) :
    firstDigits l = some l := by
  cases l with
  | nil => exact absurd rfl hne
  | cons c t =>
    simp only [firstDigits, h c (by simp), if_true]
    rw [List.takeWhile_eq_self_iff.2 (fun x hx => h x (by simp [hx]))]

/-- On a non-empty all-digit list the number pattern matches the whole list. -/
lemma firstNumChars_all {l : List Char} (hne : l ≠ []) (h : ∀ c ∈ l, isDigitCh c = true) :
    firstNumChars l = some l := by
  cases l with
  | nil => exact absurd rfl hne
  | cons c t =>
    simp only [firstNumChars, h c (by simp), if_true]
    rw [List.takeWhile_eq_self_iff.2 (fun x hx => isDigitCh_numtok (h x (by simp [hx])))]

/-- Float reading of an all-digit token returns its integer value. -/
lemma parseFloatChars_digits {l : List Char} (h : ∀ c ∈ l, isDigitCh c = true) :
    parseFloatChars l = some (digitsToNat l : ℚ) := by
  unfold parseFloatChars
  have hdot : ∀ c ∈ l, (decide (c ≠ '.')) = true :=
    fun c hc => decide_eq_true (isDigitCh_ne_comma_dot (h c hc)).2
  rw [List.takeWhile_eq_self_iff.2 hdot, List.dropWhile_eq_nil_iff.2 hdot]

/-- Digit filtering for commas keeps an all-digit token unchanged. -/
lemma filter_comma_digits {l : List Char} (h : ∀ c ∈ l, isDigitCh c = true) :
    l.filter (fun c => c ≠ ',') = l :=
  List.filter_eq_self.2 fun c hc => decide_eq_true (isDigitCh_ne_comma_dot (h c hc)).1

/-- Normalisation fixes the rendered digits of a natural number. -/
lemma pyNorm_renderNat (n : ℕ) : pyNorm (renderNat n) = natDigitChars (n + 1) n := by
  obtain ⟨-, -, hdig⟩ := natDigitChars_correct (n + 1) n (by omega)
  show (trimWs (natDigitChars (n + 1) n)).map pyLower = _
  rw [trimWs_no_ws (fun c hc => isDigitCh_not_ws (hdig c hc))]
  calc (natDigitChars (n + 1) n).map pyLower
      = (natDigitChars (n + 1) n).map id :=
        List.map_congr_left (fun c hc => pyLower_digit (hdig c hc))
    _ = natDigitChars (n + 1) n := List.map_id _

/-- Rendered positive numbers parse back to themselves. -/
lemma parse_int_renderNat (n : ℕ) (hn : 0 < n) : parse_int_from_text (renderNat n) 7 = n := by
  obtain ⟨hval, hne, hdig⟩ := natDigitChars_correct (n + 1) n (by omega)
  simp only [parse_int_from_text, pyNorm_renderNat, firstDigits_all hne hdig, hval]
  rw [if_pos (by exact_mod_cast hn)]

/-- Day-count parsing always yields a positive integer under the default of
seven. -/
lemma parse_int_pos (t : String) : 0 < parse_int_from_text t 7 := by
  unfold parse_int_from_text
  cases h : firstDigits (pyNorm t) with
  | none => norm_num
  | some ds =>
    dsimp only
    split_ifs with hd
    · exact hd
    · norm_num

/-- Day-count parser contract: the first digit run decides the result when its
value is positive, the default is returned when no digits occur or the value is
zero, the result under the default of seven is always positive, and any
positive integer can be returned, so no upper bound is enforced. -/
theorem parse_int_first_integer_or_default :
    (∀ (t : String) (d : ℤ) (ds : List Char), firstDigits (pyNorm t) = some ds →
      0 < (digitsToNat ds : ℤ) → parse_int_from_text t d = digitsToNat ds) ∧
    (∀ (t : String) (d : ℤ), firstDigits (pyNorm t) = none → parse_int_from_text t d = d) ∧
    (∀ (t : String) (d : ℤ) (ds : List Char), firstDigits (pyNorm t) = some ds →
      digitsToNat ds = 0 → parse_int_from_text t d = d) ∧
    (∀ t : String, 0 < parse_int_from_text t 7) ∧
    (∀ n : ℕ, 0 < n → parse_int_from_text (renderNat n) 7 = n) := by
  refine ⟨?_, ?_, ?_, parse_int_pos, parse_int_renderNat⟩
  · intro t d ds hds hpos
    simp [parse_int_from_text, hds, hpos]
  · intro t d hds
    simp [parse_int_from_text, hds]
  · intro t d ds hds hzero
    simp [parse_int_from_text, hds, hzero]

/-- Witness instantiating the day-count parser theorem on concrete texts. -/
theorem parse_int_first_integer_or_default_witness :
    parse_int_from_text "about 12 days" 7 = digitsToNat ('1' :: ['2']) ∧
      parse_int_from_text "no digits here" 7 = 7 ∧
      parse_int_from_text (renderNat 90) 7 = 90 :=
  ⟨parse_int_first_integer_or_default.1 "about 12 days" 7 ('1' :: ['2']) (by decide) (by decide),
    parse_int_first_integer_or_default.2.1 "no digits here" 7 (by decide),
    parse_int_first_integer_or_default.2.2.2.2 90 (by norm_num)⟩

/-- Budget parsing fails closed: the result is a total pair echoing the input
text, the empty text parses to an absent amount, texts without a digit parse to
an absent amount, and so does any text whose extracted number token cannot be
read as a float. -/
theorem parse_budget_fails_closed :
    ((parse_budget_to_usd "").1 = none) ∧
    (∀ t : String, (parse_budget_to_usd t).2 = t) ∧
    (∀ t : String, (∀ c ∈ t.data, isDigitCh c = false) → (parse_budget_to_usd t).1 = none) ∧
    (∀ (t : String) (tok : List Char), firstNumChars (pyNorm t) = some tok →
      parseFloatChars (tok.filter (fun c => c ≠ ',')) = none →
      (parse_budget_to_usd t).1 = none) := by
  refine ⟨by decide, ?_, ?_, ?_⟩
  · intro t
    unfold parse_budget_to_usd
    dsimp only
    split
    · rfl
    · split
      · rfl
      · split
        · rfl
        · split_ifs <;> rfl
  · intro t h
    have hnd : ∀ c ∈ pyNorm t, isDigitCh c = false := by
      intro c hc
      rcases List.mem_map.1 hc with ⟨c0, hc0, rfl⟩
      exact pyLower_not_digit (h c0 (mem_trimWs hc0))
    have hfn := firstNumChars_none_of_no_digit hnd
    unfold parse_budget_to_usd
    dsimp only
    split
    · rfl
    · split
      · rfl
      · rename_i tok heq
        rw [hfn] at heq
        exact Option.noConfusion heq
  · intro t tok hfn hpf
    unfold parse_budget_to_usd
    dsimp only
    split
    · rfl
    · split
      · rfl
      · rename_i tok2 heq
        rw [hfn] at heq
        injection heq with heq2
        subst heq2
        split
        · rfl
        · rename_i amt hpf2
          rw [hpf] at hpf2
          exact Option.noConfusion hpf2

/-- Witness instantiating the fail-closed theorem on digitless and malformed
number inputs. -/
theorem parse_budget_fails_closed_witness :
    (parse_budget_to_usd "xyz").2 = "xyz" ∧
      (parse_budget_to_usd "no budget yet").1 = none ∧
      (parse_budget_to_usd "1.2.3 usd").1 = none :=
  ⟨parse_budget_fails_closed.2.1 "xyz",
    parse_budget_fails_closed.2.2.1 "no budget yet" (by decide),
    parse_budget_fails_closed.2.2.2 "1.2.3 usd" ('1' :: ['.', '2', '.', '3'])
      (by decide) (by decide)⟩

/-- Branch structure of the budget parser once an amount has been extracted:
the result depends only on the markers and the million keyword. -/
lemma parse_budget_branches (t : String) (a : ℚ) (h : extracted_amount t = some a) :
    (parse_budget_to_usd t).1 =
      if is_usd_marked (pyNorm t) && !(is_mnt_marked (pyNorm t)) then
        some (if has_saya (pyNorm t) then a * 1000000 else a)
      else if is_mnt_marked (pyNorm t) && !(is_usd_marked (pyNorm t)) then
        some ((if has_saya (pyNorm t) then a * 1000000 else a) / 3500)
      else if (if has_saya (pyNorm t) then a * 1000000 else a) ≤ 10000 then
        some (if has_saya (pyNorm t) then a * 1000000 else a)
      else some ((if has_saya (pyNorm t) then a * 1000000 else a) / 3500) := by
  unfold parse_budget_to_usd
  dsimp only
  split
  · rename_i he
    exfalso
    have hnil : pyNorm t = [] := by
      cases hpn : pyNorm t
      · rfl
      · rw [hpn] at he
        exact Bool.noConfusion he
    unfold extracted_amount at h
    rw [hnil] at h
    exact Option.noConfusion h
  · split
    · rename_i hfn
      exfalso
      unfold extracted_amount at h
      rw [hfn] at h
      exact Option.noConfusion h
    · rename_i tok hfn
      unfold extracted_amount at h
      rw [hfn] at h
      dsimp only at h
      split
      · rename_i hpf
        rw [h] at hpf
        exact Option.noConfusion hpf
      · rename_i amt hpf
        rw [h] at hpf
        injection hpf with hamt
        subst hamt
        split_ifs <;> rfl

/-- Evaluation of the extraction stage on an all-digit number token. -/
lemma extracted_amount_eval (t : String) (l : List Char)
    (hfn : firstNumChars (pyNorm t) = some l) (hdig : ∀ c ∈ l, isDigitCh c = true) :
    extracted_amount t = some (digitsToNat l : ℚ) := by
  unfold extracted_amount
  rw [hfn]
  dsimp only
  rw [filter_comma_digits hdig, parseFloatChars_digits hdig]

/-- Parsed value of the two-million-tugrik fixture text: the keyword multiplies
the extracted two by a million and the tugrik branch divides by 3500. -/
lemma parse_budget_saya_value :
    (parse_budget_to_usd spec_budget_saya).1 = some (2000000 / 3500) := by
  have hex : extracted_amount spec_budget_saya = some 2 := by
    rw [extracted_amount_eval spec_budget_saya ['2'] (by decide) (by decide),
      show digitsToNat ['2'] = 2 from by decide]
    norm_num
  rw [parse_budget_branches spec_budget_saya 2 hex,
    show is_usd_marked (pyNorm spec_budget_saya) = false from by decide,
    show is_mnt_marked (pyNorm spec_budget_saya) = true from by decide,
    show has_saya (pyNorm spec_budget_saya) = true from by decide]
  norm_num

/-- Budget currency resolution: a lone dollar marker returns the extracted
amount as is, the million keyword multiplies by a million and converts as
tugrik at the 3500 rate, and without any marker amounts up to ten thousand are
taken as dollars while larger ones convert at the 3500 rate. -/
theorem parse_budget_currency_resolution :
    (∀ (t : String) (a : ℚ), extracted_amount t = some a → is_usd_marked (pyNorm t) = true →
      is_mnt_marked (pyNorm t) = false → (parse_budget_to_usd t).1 = some a) ∧
    ((parse_budget_to_usd "$1200").1 = some 1200) ∧
    (∀ (t : String) (a : ℚ), extracted_amount t = some a → has_saya (pyNorm t) = true →
      is_usd_marked (pyNorm t) = false →
      (parse_budget_to_usd t).1 = some (a * 1000000 / 3500)) ∧
    ((parse_budget_to_usd spec_budget_saya).1 = some (2000000 / 3500)) ∧
    (∀ (t : String) (a : ℚ), extracted_amount t = some a → is_usd_marked (pyNorm t) = false →
      is_mnt_marked (pyNorm t) = false →
      (parse_budget_to_usd t).1 = some (if a ≤ 10000 then a else a / 3500)) := by
  refine ⟨?_, ?_, ?_, parse_budget_saya_value, ?_⟩
  · intro t a h hu hm
    have hs : has_saya (pyNorm t) = false := by
      have hm2 := hm
      simp only [is_mnt_marked, Bool.or_eq_false_iff] at hm2
      exact hm2.2
    rw [parse_budget_branches t a h, hu, hm, hs]
    simp
  · have hex : extracted_amount "$1200" = some 1200 := by
      rw [extracted_amount_eval "$1200" ('1' :: ['2', '0', '0']) (by decide) (by decide),
        show digitsToNat ('1' :: ['2', '0', '0']) = 1200 from by decide]
      norm_num
    rw [parse_budget_branches "$1200" 1200 hex,
      show is_usd_marked (pyNorm "$1200") = true from by decide,
      show is_mnt_marked (pyNorm "$1200") = false from by decide,
      show has_saya (pyNorm "$1200") = false from by decide]
    simp
  · intro t a h hsaya hu
    have hm : is_mnt_marked (pyNorm t) = true := by
      simp [is_mnt_marked, hsaya]
    rw [parse_budget_branches t a h, hu, hm, hsaya]
    simp
  · intro t a h hu hm
    have hs : has_saya (pyNorm t) = false := by
      have hm2 := hm
      simp only [is_mnt_marked, Bool.or_eq_false_iff] at hm2
      exact hm2.2
    rw [parse_budget_branches t a h, hu, hm, hs]
    simp only [Bool.false_and, Bool.and_false, Bool.false_eq_true, if_false]
    split_ifs <;> rfl

/-- Witness instantiating the currency-resolution theorem on a dollar-marked
text, the million-tugrik text and a bare number. -/
theorem parse_budget_currency_resolution_witness :
    (parse_budget_to_usd "1100 usd").1 = some 1100 ∧
      (parse_budget_to_usd spec_budget_saya).1 = some (2 * 1000000 / 3500) ∧
      (parse_budget_to_usd "500").1 = some (if (500 : ℚ) ≤ 10000 then 500 else 500 / 3500) :=
  ⟨parse_budget_currency_resolution.1 "1100 usd" 1100
      (by
        rw [extracted_amount_eval "1100 usd" ('1' :: ['1', '0', '0']) (by decide) (by decide),
          show digitsToNat ('1' :: ['1', '0', '0']) = 1100 from by decide]
        norm_num)
      (by decide) (by decide),
    parse_budget_currency_resolution.2.2.1 spec_budget_saya 2
      (by
        rw [extracted_amount_eval spec_budget_saya ['2'] (by decide) (by decide),
          show digitsToNat ['2'] = 2 from by decide]
        norm_num)
      (by decide) (by decide),
    parse_budget_currency_resolution.2.2.2.2 "500" 500
      (by
        rw [extracted_amount_eval "500" ('5' :: ['0', '0']) (by decide) (by decide),
          show digitsToNat ('5' :: ['0', '0']) = 500 from by decide]
        norm_num)
      (by decide) (by decide)⟩

/-- Occurrence of a non-empty pattern puts its head character in the text. -/
lemma containsSub_head_mem {hay : List Char} {c0 : Char} {rest : List Char}
    (h : containsSub hay (c0 :: rest) = true) : c0 ∈ hay := by
  induction hay with
  | nil => exact Bool.noConfusion h
  | cons a t ih =>
    simp only [containsSub, isPrefixChars, Bool.or_eq_true, Bool.and_eq_true] at h
    rcases h with ⟨h1, -⟩ | h2
    · exact List.mem_cons.2 (Or.inl (beq_iff_eq.1 h1))
    · exact List.mem_cons.2 (Or.inr (ih h2))

/-- Patterns made of non-digit, non-dollar characters never occur in a text of
one dollar sign followed by digits. -/
lemma containsSub_false_auto {hay needle : List Char} (hn : needle ≠ [])
    (hprop : ∀ c0 ∈ needle, isDigitCh c0 = false ∧ c0 ≠ '$')
    (hhay : ∀ x ∈ hay, x = '$' ∨ isDigitCh x = true) :
    containsSub hay needle = false := by
  rcases needle with _ | ⟨c0, rest⟩
  · exact absurd rfl hn
  · by_contra hc
    rw [Bool.not_eq_false] at hc
    have hm := containsSub_head_mem hc
    obtain ⟨hd0, hne0⟩ := hprop c0 (by simp)
    rcases hhay c0 hm with h' | h'
    · exact hne0 h'
    · rw [h'] at hd0
      exact Bool.noConfusion hd0

/-- Re-parsing a dollar sign followed by the rendered digits of a whole amount
returns exactly that amount. -/
lemma parse_budget_dollar_digits (n : ℕ) :
    (parse_budget_to_usd ("$" ++ renderNat n)).1 = some (n : ℚ) := by
  obtain ⟨hval, hne, hdig⟩ := natDigitChars_correct (n + 1) n (by omega)
  have hdata : ("$" ++ renderNat n).data = '$' :: natDigitChars (n + 1) n := by
    rw [String.data_append]
    rfl
  have hnorm : pyNorm ("$" ++ renderNat n) = '$' :: natDigitChars (n + 1) n := by
    unfold pyNorm
    rw [hdata]
    rw [trimWs_no_ws (by
      intro c hc
      rcases List.mem_cons.1 hc with rfl | hc
      · decide
      · exact isDigitCh_not_ws (hdig c hc))]
    rw [List.map_cons, show pyLower '$' = '$' from by decide]
    congr 1
    calc (natDigitChars (n + 1) n).map pyLower
        = (natDigitChars (n + 1) n).map id :=
          List.map_congr_left (fun c hc => pyLower_digit (hdig c hc))
      _ = natDigitChars (n + 1) n := List.map_id _
  have hfn : firstNumChars ('$' :: natDigitChars (n + 1) n) = some (natDigitChars (n + 1) n) := by
    simp only [firstNumChars, show isDigitCh '$' = false from by decide,
      Bool.false_eq_true, if_false]
    exact firstNumChars_all hne hdig
  have hex : extracted_amount ("$" ++ renderNat n) = some (n : ℚ) := by
    rw [show extracted_amount ("$" ++ renderNat n) =
        some (digitsToNat (natDigitChars (n + 1) n) : ℚ) from
      extracted_amount_eval _ _ (hnorm ▸ hfn) hdig, hval]
  have hhay : ∀ x ∈ ('$' :: natDigitChars (n + 1) n), x = '$' ∨ isDigitCh x = true := by
    intro x hx
    rcases List.mem_cons.1 hx with h' | h'
    · exact Or.inl h'
    · exact Or.inr (hdig x h')
  have hu : is_usd_marked (pyNorm ("$" ++ renderNat n)) = true := by
    rw [hnorm]
    simp [is_usd_marked, containsSub, isPrefixChars]
  have hmnt : is_mnt_marked (pyNorm ("$" ++ renderNat n)) = false := by
    rw [hnorm]
    simp only [is_mnt_marked, has_saya, Bool.or_eq_false_iff]
    exact ⟨⟨⟨containsSub_false_auto (by decide) (by decide) hhay,
      containsSub_false_auto (by decide) (by decide) hhay⟩,
      containsSub_false_auto (by decide) (by decide) hhay⟩,
      containsSub_false_auto (by decide) (by decide) hhay⟩
  have hsaya : has_saya (pyNorm ("$" ++ renderNat n)) = false := by
    have hm2 := hmnt
    simp only [is_mnt_marked, Bool.or_eq_false_iff] at hm2
    exact hm2.2
  rw [parse_budget_branches _ _ hex, hu, hmnt, hsaya]
  simp

/-- Normalizer idempotence as it actually holds: the day-count parser is
idempotent on its own rendered output for every input, and re-parsing the
dollar-rendered budget amount returns the same amount for whole amounts; the
zero-decimal rendering rounds fractional amounts, so idempotence stops there. -/
theorem normalizer_idempotence_amended :
    (∀ t : String, parse_int_from_text (renderNat (parse_int_from_text t 7).toNat) 7 =
      parse_int_from_text t 7) ∧
    (∀ (t : String) (n : ℕ), (parse_budget_to_usd t).1 = some (n : ℚ) →
      (parse_budget_to_usd ("$" ++ renderNat n)).1 = some (n : ℚ)) := by
  constructor
  · intro t
    have hpos := parse_int_pos t
    rw [parse_int_renderNat (parse_int_from_text t 7).toNat (by omega)]
    omega
  · intro t n _
    exact parse_budget_dollar_digits n

/-- Witness instantiating the amended idempotence theorem on a day text and on
a whole dollar amount. -/
theorem normalizer_idempotence_amended_witness :
    parse_int_from_text (renderNat (parse_int_from_text "9 days" 7).toNat) 7 =
      parse_int_from_text "9 days" 7 ∧
    (parse_budget_to_usd ("$" ++ renderNat 25)).1 = some ((25 : ℕ) : ℚ) :=
  ⟨normalizer_idempotence_amended.1 "9 days",
    normalizer_idempotence_amended.2 "$25" 25 (by
      rw [show ("$25" : String) = "$" ++ renderNat 25 from by decide]
      rw [parse_budget_dollar_digits 25])⟩

/-- Counterexample to budget re-parse idempotence: the two-million-tugrik text
parses to 4000 sevenths, its zero-decimal dollar rendering re-parses to exactly
571, and the two amounts differ. -/
theorem budget_reparse_not_idempotent :
    (parse_budget_to_usd spec_budget_saya).1 = some (2000000 / 3500) ∧
    (parse_budget_to_usd (render_usd_whole (2000000 / 3500))).1 = some 571 ∧
    (2000000 / 3500 : ℚ) ≠ 571 := by
  refine ⟨parse_budget_saya_value, ?_, by norm_num⟩
  have h1 : pyFormatF0 (2000000 / 3500 : ℚ) = 571 := by
    have hfl : ⌊(2000000 / 3500 : ℚ)⌋ = 571 := by norm_num
    unfold pyFormatF0
    rw [hfl, if_pos (by norm_num)]
  rw [render_usd_whole, h1, show ((571 : ℤ).toNat) = 571 from by decide,
    parse_budget_dollar_digits 571]
  norm_num
